import Mathlib

/-!
Shallow embedding of the deployment pipeline of `src/app.py` (Flask routes
`deploy_code` and `deploy_to_github`) and verification of the frozen claims.

Python string operations are modelled on `List Char` (a Lean `String` is a
structure holding its `data : List Char`):
  * `leadsWith pat s`      models "s starts with pat",
  * `hasInfixList pat s`   models Python `pat in s`,
  * `removeAll pat s`      models Python `s.replace(pat, '')` (left-to-right,
                           non-overlapping occurrences),
  * `splitOnCharList c s`  models Python `s.split(c)` for a one-character
                           separator (empty parts kept),
  * `strLower s`           models Python `s.lower()` (per-character lowering),
  * `pyStrip s`            models Python `s.strip()`.

Subprocess and filesystem interactions are modelled by an environment record
whose fields give the outcome of each external operation, in program order;
the embedded functions additionally return the ordered trace of attempted
side effects (`Effect`), so that frame claims are statable.
-/

set_option maxHeartbeats 1000000
set_option maxRecDepth 8192

/-- Does the character list `s` start with `pat`?  (Executable.) -/
def leadsWith : List Char → List Char → Bool
  | [], _ => true
  | _ :: _, [] => false
  | p :: ps, c :: cs => p == c && leadsWith ps cs

/-- Does `pat` occur contiguously anywhere in `s`?  Models Python `pat in s`. -/
def hasInfixList (pat : List Char) : List Char → Bool
  | [] => pat.isEmpty
  | c :: cs => leadsWith pat (c :: cs) || hasInfixList pat cs

/-- String-level wrapper of `hasInfixList`: models Python `pat in s`. -/
def containsSub (s pat : String) : Bool :=
  hasInfixList pat.data s.data

/-- Models Python `s.lower()` (character-wise lowering). -/
def strLower (s : String) : String :=
  ⟨s.data.map Char.toLower⟩

/-- Models Python `s.strip()` (whitespace removed from both ends). -/
def pyStrip (s : String) : String :=
  ⟨((s.data.dropWhile Char.isWhitespace).reverse.dropWhile Char.isWhitespace).reverse⟩

/-- Fuel-driven core of `removeAll`; the fuel is an upper bound on the length
of the remaining input, so with fuel `s.length` the middle arm is never hit.
Only ever used with a non-empty pattern. -/
def removeAllGo (pat : List Char) : Nat → List Char → List Char
  | _, [] => []
  | 0, s => s
  | n + 1, c :: cs =>
    if leadsWith pat (c :: cs) then removeAllGo pat n (List.drop (pat.length - 1) cs)
    else c :: removeAllGo pat n cs

/-- Models Python `s.replace(pat, '')`: scan left to right, delete each
non-overlapping occurrence of `pat`. -/
def removeAll (pat s : List Char) : List Char :=
  removeAllGo pat s.length s

/-- Models Python `s.split(sep)` for a single-character separator: empty
parts are kept and the result is never the empty list. -/
def splitOnCharList (sep : Char) : List Char → List (List Char)
  | [] => [[]]
  | c :: cs =>
    let r := splitOnCharList sep cs
    if c == sep then [] :: r
    else
      match r with
      | [] => [[c]]
      | h :: t => (c :: h) :: t

-- ## Basic lemmas about the string model

theorem leadsWith_append_split (p a c : List Char) :
    leadsWith p (a ++ c) = (leadsWith (p.take a.length) a && leadsWith (p.drop a.length) c) := by
  induction a generalizing p with
  | nil => cases p <;> simp [leadsWith]
  | cons x a ih =>
    cases p with
    | nil => simp [leadsWith]
    | cons q qs =>
      simp only [List.cons_append, List.append_eq, leadsWith, List.length_cons,
        List.take_succ_cons, List.drop_succ_cons, ih, Bool.and_assoc]

theorem leadsWith_refl (p : List Char) : leadsWith p p = true := by
  induction p with
  | nil => rfl
  | cons c cs ih => simp [leadsWith, ih]

theorem leadsWith_append_of (p a c : List Char) (h : leadsWith p a = true) :
    leadsWith p (a ++ c) = true := by
  induction a generalizing p with
  | nil => cases p with
    | nil => simp [leadsWith]
    | cons q qs => simp [leadsWith] at h
  | cons x a ih =>
    cases p with
    | nil => simp [leadsWith]
    | cons q qs =>
      simp only [leadsWith, Bool.and_eq_true] at h ⊢
      exact ⟨h.1, ih qs h.2⟩

theorem leadsWith_iff_exists (p s : List Char) :
    leadsWith p s = true ↔ ∃ r, s = p ++ r := by
  induction p generalizing s with
  | nil => simp [leadsWith]
  | cons q qs ih =>
    cases s with
    | nil =>
      simp only [leadsWith, Bool.false_eq_true, false_iff]
      rintro ⟨r, hr⟩
      simp at hr
    | cons c cs =>
      simp only [leadsWith, Bool.and_eq_true, beq_iff_eq, ih, List.cons_append,
        List.cons.injEq]
      constructor
      · rintro ⟨h1, r, h2⟩
        exact ⟨r, h1.symm, h2⟩
      · rintro ⟨r, h1, h2⟩
        exact ⟨h1.symm, r, h2⟩

theorem hasInfixList_iff_exists (pat s : List Char) :
    hasInfixList pat s = true ↔ ∃ l r, s = l ++ pat ++ r := by
  induction s with
  | nil =>
    cases pat with
    | nil => simp [hasInfixList]
    | cons p ps =>
      simp only [hasInfixList, List.isEmpty_cons, Bool.false_eq_true, false_iff]
      rintro ⟨l, r, hr⟩
      simp at hr
  | cons c cs ih =>
    simp only [hasInfixList, Bool.or_eq_true, leadsWith_iff_exists, ih]
    constructor
    · rintro (⟨r, hr⟩ | ⟨l, r, hr⟩)
      · exact ⟨[], r, by simp [hr]⟩
      · exact ⟨c :: l, r, by simp [hr]⟩
    · rintro ⟨l, r, hr⟩
      cases l with
      | nil => exact Or.inl ⟨r, by simpa using hr⟩
      | cons a l' =>
        simp only [List.cons_append, List.cons.injEq] at hr
        exact Or.inr ⟨l', r, hr.2⟩

theorem hasInfixList_append_left (pat s t : List Char)
    (h : hasInfixList pat s = true) : hasInfixList pat (s ++ t) = true := by
  rw [hasInfixList_iff_exists] at h ⊢
  obtain ⟨l, r, hr⟩ := h
  exact ⟨l, r ++ t, by simp [hr]⟩

theorem splitOnCharList_ne_nil (sep : Char) (s : List Char) :
    splitOnCharList sep s ≠ [] := by
  cases s with
  | nil => simp [splitOnCharList]
  | cons c cs =>
    simp only [splitOnCharList]
    split
    · simp
    · split
      · simp
      · simp

theorem splitOnCharList_eq_singleton (sep : Char) (s : List Char)
    (h : sep ∉ s) : splitOnCharList sep s = [s] := by
  induction s with
  | nil => rfl
  | cons c cs ih =>
    simp only [List.mem_cons, not_or] at h
    simp only [splitOnCharList, ih h.2]
    have : (c == sep) = false := by
      simp only [beq_eq_false_iff_ne, ne_eq]
      exact fun hc => h.1 hc.symm
    simp [this]

theorem splitOnCharList_append_sep (sep : Char) (a b : List Char)
    (hb : sep ∉ b) :
    splitOnCharList sep (a ++ sep :: b) = splitOnCharList sep a ++ [b] := by
  induction a with
  | nil =>
    simp [splitOnCharList, splitOnCharList_eq_singleton sep b hb]
  | cons c a' ih =>
    obtain ⟨h, t, ht⟩ : ∃ h t, splitOnCharList sep a' = h :: t := by
      cases hsp : splitOnCharList sep a' with
      | nil => exact absurd hsp (splitOnCharList_ne_nil sep a')
      | cons h t => exact ⟨h, t, rfl⟩
    by_cases hc : c = sep
    · simp [List.cons_append, splitOnCharList, hc, ih]
    · have hcf : (c == sep) = false := by simp [hc]
      simp [List.cons_append, splitOnCharList, hcf, ih, ht]

theorem dropLen_le (k : Nat) (l : List Char) : (List.drop k l).length ≤ l.length := by
  rw [List.length_drop]
  omega

theorem removeAllGo_fuel_irrel (pat : List Char) :
    ∀ n m s, s.length ≤ n → s.length ≤ m →
      removeAllGo pat n s = removeAllGo pat m s := by
  intro n
  induction n with
  | zero =>
    intro m s hn _
    have : s = [] := List.eq_nil_of_length_eq_zero (Nat.le_zero.mp hn)
    subst this
    cases m <;> rfl
  | succ n ih =>
    intro m s hn hm
    cases s with
    | nil => cases m <;> rfl
    | cons c cs =>
      cases m with
      | zero => simp at hm
      | succ m =>
        simp only [removeAllGo]
        simp only [List.length_cons, Nat.succ_le_succ_iff] at hn hm
        by_cases hl : leadsWith pat (c :: cs) = true
        · simp only [hl, if_true]
          exact ih m _ (le_trans (dropLen_le _ _) hn)
            (le_trans (dropLen_le _ _) hm)
        · simp only [Bool.not_eq_true] at hl
          simp only [hl, Bool.false_eq_true, if_false]
          rw [ih m cs hn hm]

theorem removeAll_nil (pat : List Char) : removeAll pat [] = [] := by
  cases pat <;> rfl

theorem removeAll_cons (pat : List Char) (c : Char) (cs : List Char) :
    removeAll pat (c :: cs) =
      (if leadsWith pat (c :: cs) then removeAll pat (List.drop (pat.length - 1) cs)
       else c :: removeAll pat cs) := by
  simp only [removeAll, List.length_cons, removeAllGo]
  by_cases hl : leadsWith pat (c :: cs) = true
  · simp only [hl, if_true]
    exact removeAllGo_fuel_irrel pat cs.length _ _
      (dropLen_le _ _) (le_refl _)
  · simp only [Bool.not_eq_true] at hl
    simp [hl]

theorem removeAll_of_not_hasInfix (pat s : List Char)
    (h : hasInfixList pat s = false) : removeAll pat s = s := by
  induction s with
  | nil => exact removeAll_nil pat
  | cons c cs ih =>
    simp only [hasInfixList, Bool.or_eq_false_iff] at h
    rw [removeAll_cons, h.1]
    simp [ih h.2]

/-- The pattern `".git"`, as a character list. -/
def gitPat : List Char := ['.', 'g', 'i', 't']

theorem leadsWith_gitPat_append (s : List Char) (hs : s ≠ []) :
    leadsWith gitPat (s ++ gitPat) = leadsWith gitPat s := by
  match s, hs with
  | [a], _ => simp [gitPat, leadsWith]
  | [a, b], _ => simp [gitPat, leadsWith]
  | [a, b, c], _ => simp [gitPat, leadsWith]
  | a :: b :: c :: d :: rest, _ => simp [gitPat, leadsWith]

theorem removeAll_append_gitPat (s : List Char)
    (h : hasInfixList gitPat s = false) :
    removeAll gitPat (s ++ gitPat) = s := by
  induction s with
  | nil =>
    simp only [List.nil_append]
    rw [show gitPat = '.' :: ['g', 'i', 't'] from rfl, removeAll_cons]
    simp [leadsWith_refl, gitPat, leadsWith, removeAll_nil]
  | cons c cs ih =>
    simp only [hasInfixList, Bool.or_eq_false_iff] at h
    rw [List.cons_append, removeAll_cons,
      show (c :: (cs ++ gitPat)) = (c :: cs) ++ gitPat from rfl,
      leadsWith_gitPat_append (c :: cs) (by simp), h.1]
    simp [ih h.2]

theorem getLastD_concat_nil (l : List (List Char)) (x : List Char) :
    (l ++ [x]).getLastD [] = x := by
  induction l with
  | nil => rfl
  | cons a l ih =>
    cases l with
    | nil => rfl
    | cons b t => simpa using ih

theorem reverse_getD_one (l : List (List Char)) (a b : List Char) :
    ((l ++ [a, b]).reverse).getD 1 [] = a := by
  have : (l ++ [a, b]).reverse = b :: a :: l.reverse := by
    simp [List.reverse_append]
  simp [this]

-- ## The `deploy_code` route (the Execute operation, src/app.py lines 74-113)

/-- The fixed path `GENERATED_FILE = 'generated_code.py'` of src/app.py line 18. -/
def GENERATED_FILE : String := "generated_code.py"

/-- Side effects attempted by the embedded routes, in program order.
`removeFile` never occurs in any trace: the cleanup `os.remove(GENERATED_FILE)`
of src/app.py line 111 is commented out. -/
inductive Effect where
  | mkdirDocs
  | writeFile (path content : String)
  | removeFile (path : String)
  | runProc (cmd : List String)
deriving DecidableEq

/-- Outcome of the `subprocess.run(['python', GENERATED_FILE], ..., check=True)`
call of src/app.py lines 92-98, one constructor per `except` arm (plus clean
success). A non-zero exit code raises `CalledProcessError` because of
`check=True`. -/
inductive ExecRun where
  | ok (stdout : String)
  | calledProcessError (stderr : String)
  | timedOut
  | fileNotFound
  | otherExc (msg : String)
deriving DecidableEq

/-- Environment of one `deploy_code` request: outcome of the file save
(`none` = success, `some e` = the exception's message) and of the subprocess. -/
structure ExecEnv where
  saveRes : Option String
  runRes : ExecRun
deriving DecidableEq

/-- Embedding of the `deploy_code` route of src/app.py lines 74-113: returns
the `output` string of the JSON response together with the trace of attempted
side effects.  An attempted write is recorded even when it fails. -/
def deployCode (code : String) (env : ExecEnv) : String × List Effect :=
  if code = "" then ("Error: No code provided for execution.", [])
  else
    match env.saveRes with
    | some e => ("Error saving file: " ++ e, [Effect.writeFile GENERATED_FILE code])
    | none =>
      let effs := [Effect.writeFile GENERATED_FILE code,
                   Effect.runProc ["python", GENERATED_FILE]]
      match env.runRes with
      | ExecRun.ok out => ("Execution Successful:\n\n" ++ out, effs)
      | ExecRun.calledProcessError err =>
          ("Execution Failed (Runtime Error):\n\n" ++ err, effs)
      | ExecRun.timedOut =>
          ("Execution Failed (Timeout): The code took too long to run.", effs)
      | ExecRun.fileNotFound =>
          ("Execution Failed: Python interpreter not found.", effs)
      | ExecRun.otherExc msg =>
          ("An unexpected error occurred during execution: " ++ msg, effs)

/-- String-level "starts with", via `leadsWith`. -/
def startsWithSub (s pat : String) : Bool :=
  leadsWith pat.data s.data

/-- How many of the four fixed prefixes of the spec the Execute output starts
with (the fourth category is `Execution Failed:` or `An unexpected error`). -/
def execOutputClass (o : String) : Nat :=
  (if startsWithSub o "Execution Successful:" then 1 else 0) +
  (if startsWithSub o "Execution Failed (Runtime Error):" then 1 else 0) +
  (if startsWithSub o "Execution Failed (Timeout):" then 1 else 0) +
  (if startsWithSub o "Execution Failed:" || startsWithSub o "An unexpected error"
   then 1 else 0)

/-- The write paths of a trace, in order. -/
def writePaths (l : List Effect) : List String :=
  l.filterMap fun e =>
    match e with
    | Effect.writeFile p _ => some p
    | _ => none

/-- Whether a trace contains any file-removal effect. -/
def mentionsRemove (l : List Effect) : Bool :=
  l.any fun e =>
    match e with
    | Effect.removeFile _ => true
    | _ => false

-- ## The `deploy_to_github` route (src/app.py lines 117-350)

/-- Result of one completed `subprocess.run` git call (no `check=True`):
return code and captured stdout/stderr. -/
structure ProcRes where
  returncode : Int
  stdout : String
  stderr : String
deriving DecidableEq

/-- Outcome of a `subprocess.run` call that can also raise: it completes,
exceeds its timeout (`TimeoutExpired`), or fails to launch (e.g.
`FileNotFoundError`, carried as a generic exception message). -/
inductive RunRes where
  | completed (r : ProcRes)
  | timedOut
  | launchError (msg : String)
deriving DecidableEq

/-- Environment of one `deploy_to_github` request: the outcome of each
external operation, in program order.  `Option String` write outcomes are
`none` on success and `some msg` on an exception with message `msg`.  The
git binary itself is modelled as present for the plain (un-timed) git calls,
whose outcome is a `ProcRes`. -/
structure Env where
  mkdirRes : Option String
  writeCodeRes : Option String
  execRes : RunRes
  writeIndexRes : Option String
  writeReadmeRes : Option String
  gitCheck : ProcRes
  gitInit : ProcRes
  remoteCheck1 : ProcRes
  gitAdd : ProcRes
  gitCommit : ProcRes
  gitPush : RunRes
  remoteCheck2 : ProcRes
deriving DecidableEq

/-- The JSON shape returned by `deploy_to_github`; absent keys are `none`. -/
structure DeploymentResult where
  status : String
  message : String
  log : Option (List String)
  instructions : Option String
  error : Option String
deriving DecidableEq

/-- Exceptions reaching the boundary handlers of src/app.py lines 337-350. -/
inductive PyExc where
  | timeoutExpired
  | generic (msg : String)
deriving DecidableEq

/-- The two `except` arms at the pipeline boundary (src/app.py lines 337-350):
each appends one entry to the log and returns a terminal `error` result. -/
def catchResult (log : List String) : PyExc → DeploymentResult
  | PyExc.timeoutExpired =>
      { status := "error", message := "Deployment timed out",
        log := some (log ++ ["❌ Operation timed out"]),
        instructions := none, error := none }
  | PyExc.generic e =>
      { status := "error", message := "Deployment failed: " ++ e,
        log := some (log ++ ["❌ Error: " ++ e]),
        instructions := none, error := none }

/-- The output classifier of src/app.py line 152:
`'<html' in output.lower() or '<!doctype' in output.lower()`. -/
def looksLikeHtml (output : String) : Bool :=
  containsSub (strLower output) "<html" || containsSub (strLower output) "<!doctype"

/-- The HTML wrapper template of src/app.py lines 160-172, up to the point
where `{output}` is interpolated. -/
def wrapHead : String :=
  "<!DOCTYPE html>\n<html lang=\"en\">\n<head>\n    <meta charset=\"UTF-8\">\n    <meta name=\"viewport\" content=\"width=device-width, initial-scale=1.0\">\n    <title>Generated Output</title>\n    <script src=\"https://cdn.tailwindcss.com\"></script>\n</head>\n<body class=\"bg-gray-900 text-white min-h-screen p-8\">\n    <div class=\"max-w-4xl mx-auto\">\n        <h1 class=\"text-4xl font-bold mb-6 text-blue-400\">Generated Output</h1>\n        <div class=\"bg-gray-800 rounded-lg p-6 shadow-xl\">\n            <pre class=\"whitespace-pre-wrap font-mono text-green-400\">"

/-- The HTML wrapper template of src/app.py lines 172-179, after the point
where `{output}` is interpolated. -/
def wrapTail : String :=
  "</pre>\n        </div>\n        <footer class=\"mt-8 text-center text-gray-400\">\n            <p>Generated by LLM Code Deployment Tool</p>\n        </footer>\n    </div>\n</body>\n</html>"

/-- The f-string of src/app.py lines 160-179: the captured output is
interpolated verbatim (no escaping) between `wrapHead` and `wrapTail`. -/
def wrapHtml (output : String) : String :=
  wrapHead ++ output ++ wrapTail

/-- The content written to `docs/index.html` (src/app.py lines 151-184):
the raw output when it looks like HTML, else the wrapper document. -/
def renderedIndex (output : String) : String :=
  if looksLikeHtml output then output else wrapHtml output

/-- The README written to `docs/README.md` (src/app.py lines 187-200). -/
def readmeContent : String :=
  "# Generated Code Output\n\nThis page was automatically generated and deployed by the LLM Code Deployment Tool.\n\n## Auto-Deployment\n\nThis project uses automated GitHub Pages deployment.\n\n## Source Code\n\nThe Python code that generated this output is available in `generated_code.py`.\n"

/-- The remediation instructions returned when no `origin` remote is
configured (src/app.py lines 233-239). -/
def remoteInstructions : String :=
  "\n⚠️ Git remote not configured!\n\nPlease run these commands:\n1. git remote add origin https://github.com/[username]/[repo-name].git\n2. Then try deploying again for automatic push\n"

/-- The manual-deployment instructions returned when `auto_push` is false
(src/app.py lines 329-334). -/
def manualInstructions : String :=
  "\nManual deployment steps:\n1. git add docs/\n2. git commit -m \"Deploy to GitHub Pages\"\n3. git push origin main\n"

/-- The Pages-URL synthesis of src/app.py lines 292-297, given the stripped
remote URL: guarded by `'github.com' in remote_url`, then
`parts = remote_url.replace('.git', '').split('/')`; when `len(parts) >= 2`,
`username = parts[-2].split(':')[-1]` and `repo = parts[-1]` (negative
indexing is modelled through `reverse`/`getLastD`). -/
def pagesFromParts (parts : List (List Char)) : Option String :=
  if 2 ≤ parts.length then
    let username := (splitOnCharList ':' (parts.reverse.getD 1 [])).getLastD []
    let repo := parts.getLastD []
    some ("https://" ++ (⟨username⟩ : String) ++ ".github.io/" ++ (⟨repo⟩ : String) ++ "/")
  else none

/-- See `pagesFromParts` for the part after the `.split('/')`. -/
def pagesUrl (remoteUrl : String) : Option String :=
  if containsSub remoteUrl "github.com" then
    pagesFromParts (splitOnCharList '/' (removeAll gitPat remoteUrl.data))
  else none

/-- The three log lines appended after a successful push when the remote URL
parses (src/app.py lines 298-300). -/
def pagesLogLines (u : String) : List String :=
  ["\n🌐 Your site will be live at:\n   " ++ u,
   "\n⚠️ Note: First deployment may take 1-2 minutes",
   "⚠️ Make sure GitHub Pages is enabled in repo settings!"]

/-- Stage, commit and push (src/app.py lines 242-322), entered with the log
and effect trace accumulated so far. -/
def stageCommitPush (env : Env) (log : List String) (effs : List Effect) :
    DeploymentResult × List Effect :=
  let effs := effs ++ [Effect.runProc ["git", "add", "docs/"]]
  let log := log ++ ["✅ Added files to Git"]
  let effs := effs ++
    [Effect.runProc ["git", "commit", "-m", "Auto-deploy: Generated code to GitHub Pages"]]
  let log := log ++
    (if env.gitCommit.returncode = 0 then ["✅ Committed changes"]
     else if containsSub (strLower env.gitCommit.stdout) "nothing to commit" then
       ["ℹ️ No changes to commit"]
     else ["⚠️ Commit warning: " ++ env.gitCommit.stderr])
  let effs := effs ++ [Effect.runProc ["git", "push", "origin", "main"]]
  match env.gitPush with
  | RunRes.timedOut => (catchResult log PyExc.timeoutExpired, effs)
  | RunRes.launchError msg => (catchResult log (PyExc.generic msg), effs)
  | RunRes.completed p =>
    if p.returncode = 0 then
      let log := log ++ ["✅ Pushed to GitHub successfully!", "\n🎉 DEPLOYMENT COMPLETE!"]
      let effs := effs ++ [Effect.runProc ["git", "remote", "get-url", "origin"]]
      let log := log ++
        (if env.remoteCheck2.returncode = 0 then
          match pagesUrl (pyStrip env.remoteCheck2.stdout) with
          | some u => pagesLogLines u
          | none => []
         else [])
      ({ status := "success", message := "Automatically deployed to GitHub Pages!",
         log := some log, instructions := none, error := none }, effs)
    else
      let log := log ++ ["❌ Push failed: " ++ p.stderr] ++
        (if containsSub (strLower p.stderr) "rejected" then
          ["\n💡 Tip: Try running 'git pull origin main' first"]
         else if containsSub (strLower p.stderr) "could not read"
             || containsSub (strLower p.stderr) "authentication" then
          ["\n💡 Tip: Check your Git credentials or use SSH keys"]
         else [])
      ({ status := "partial", message := "Files created and committed, but push failed",
         log := some log, instructions := none, error := some p.stderr }, effs)

/-- The automated git phase (src/app.py lines 204-241): repo check, optional
`git init` (with `check=True`: a non-zero exit raises `CalledProcessError`)
and, only after a fresh init, the remote check. -/
def gitOps (env : Env) (log : List String) (effs : List Effect) :
    DeploymentResult × List Effect :=
  let log := log ++ ["\n🔄 Starting automated Git deployment..."]
  let effs := effs ++ [Effect.runProc ["git", "rev-parse", "--git-dir"]]
  if env.gitCheck.returncode ≠ 0 then
    let effs := effs ++ [Effect.runProc ["git", "init"]]
    if env.gitInit.returncode ≠ 0 then
      (catchResult log (PyExc.generic
        ("Command '['git', 'init']' returned non-zero exit status "
          ++ toString env.gitInit.returncode ++ ".")), effs)
    else
      let log := log ++ ["✅ Initialized Git repository"]
      let effs := effs ++ [Effect.runProc ["git", "remote", "get-url", "origin"]]
      if env.remoteCheck1.returncode ≠ 0 then
        ({ status := "partial", message := "Files created but Git remote not configured",
           log := some log, instructions := some remoteInstructions, error := none }, effs)
      else stageCommitPush env log effs
  else stageCommitPush env log effs

/-- Embedding of the `deploy_to_github` route (src/app.py lines 117-350):
returns the JSON result and the ordered trace of attempted side effects.
The Python code performs the `docs/index.html` write inside each branch of
the HTML check with the same `open`/`write` pair; here the branch chooses the
content and log entry and the single write follows, which is the same
behaviour. -/
def deployToGithub (code : String) (autoPush : Bool) (env : Env) :
    DeploymentResult × List Effect :=
  if code = "" then
    ({ status := "error", message := "No code provided for deployment.",
       log := none, instructions := none, error := none }, [])
  else
    match env.mkdirRes with
    | some e => (catchResult [] (PyExc.generic e), [Effect.mkdirDocs])
    | none =>
      let log := ["✅ Created /docs directory"]
      let effs := [Effect.mkdirDocs, Effect.writeFile "docs/generated_code.py" code]
      match env.writeCodeRes with
      | some e => (catchResult log (PyExc.generic e), effs)
      | none =>
        let log := log ++ ["✅ Saved Python code"]
        let effs := effs ++ [Effect.runProc ["python", "docs/generated_code.py"]]
        match env.execRes with
        | RunRes.timedOut => (catchResult log PyExc.timeoutExpired, effs)
        | RunRes.launchError msg => (catchResult log (PyExc.generic msg), effs)
        | RunRes.completed r =>
          let output := if r.stdout = "" then r.stderr else r.stdout
          let effs := effs ++ [Effect.writeFile "docs/index.html" (renderedIndex output)]
          match env.writeIndexRes with
          | some e => (catchResult log (PyExc.generic e), effs)
          | none =>
            let log := log ++
              [if looksLikeHtml output then "✅ Generated HTML page"
               else "✅ Created HTML wrapper"]
            let effs := effs ++ [Effect.writeFile "docs/README.md" readmeContent]
            match env.writeReadmeRes with
            | some e => (catchResult log (PyExc.generic e), effs)
            | none =>
              let log := log ++ ["✅ Created README.md"]
              if autoPush then gitOps env log effs
              else
                ({ status := "success", message := "Files created successfully",
                   log := some log, instructions := some manualInstructions,
                   error := none }, effs)

-- ## Helper lemmas for prefix reasoning on outputs with variable suffixes

theorem strData_append (a b : String) : (a ++ b).data = a.data ++ b.data := rfl

theorem startsWithSub_append_true (a s p : String)
    (h : leadsWith p.data a.data = true) : startsWithSub (a ++ s) p = true := by
  simp only [startsWithSub, strData_append]
  exact leadsWith_append_of _ _ _ h

theorem startsWithSub_append_false (a s p : String)
    (h : leadsWith (p.data.take a.data.length) a.data = false) :
    startsWithSub (a ++ s) p = false := by
  simp only [startsWithSub, strData_append, leadsWith_append_split, h,
    Bool.false_and]

/-- Projection of the result's log as a plain list (empty when absent). -/
def logOf (r : DeploymentResult) : List String := r.log.getD []

-- ## Shared concrete environments used by witnesses and counterexamples

/-- An all-success ExecEnv. -/
def execEnvOk : ExecEnv := ⟨none, ExecRun.ok "1\n"⟩

/-- An ExecEnv whose file save raises. -/
def execEnvSaveFail : ExecEnv := ⟨some "disk full", ExecRun.ok "1\n"⟩

/-- A git call that succeeded with empty output. -/
def procOk : ProcRes := ⟨0, "", ""⟩

/-- An environment in which every external operation succeeds. -/
def envAllOk : Env :=
  { mkdirRes := none, writeCodeRes := none,
    execRes := RunRes.completed ⟨0, "hi\n", ""⟩,
    writeIndexRes := none, writeReadmeRes := none,
    gitCheck := procOk, gitInit := procOk, remoteCheck1 := procOk,
    gitAdd := procOk, gitCommit := procOk,
    gitPush := RunRes.completed procOk,
    remoteCheck2 := ⟨0, "https://github.com/alice/demo.git\n", ""⟩ }

/-- As `envAllOk` but the push exceeds its 30-second timeout. -/
def envPushTimeout : Env := { envAllOk with gitPush := RunRes.timedOut }

/-- As `envAllOk` but the push fails with an error mentioning both a rejection
and authentication. -/
def envPushRejectedAuth : Env :=
  { envAllOk with gitPush := RunRes.completed ⟨1, "", "rejected: authentication required"⟩ }

/-- As `envAllOk` but the push fails with a plain rejection. -/
def envPushRejected : Env :=
  { envAllOk with gitPush := RunRes.completed ⟨1, "", "! [rejected] main -> main"⟩ }

/-- As `envAllOk` but the save of the Python code raises. -/
def envWriteFail : Env := { envAllOk with writeCodeRes := some "disk full" }

/-- As `envAllOk` but no repository exists and, after `git init`, no remote is
configured. -/
def envNoRemote : Env :=
  { envAllOk with gitCheck := ⟨128, "", "fatal: not a git repository"⟩,
                  remoteCheck1 := ⟨2, "", "error: No such remote 'origin'"⟩ }

-- ## C5

/-- C5: for every deployment request with empty code, the pipeline returns
immediately with a validation error before performing any side effect (the
effect trace is empty), and the returned result contains no log entries. -/
theorem c5_empty_code_fails_fast (autoPush : Bool) (env : Env) :
    deployToGithub "" autoPush env =
      ({ status := "error", message := "No code provided for deployment.",
         log := none, instructions := none, error := none }, []) := by
  simp [deployToGithub]

-- ## C7

/-- C7: the output classifier is a total function of the captured text; it
selects the verbatim-document branch iff the lowered text contains `<html`
or `<!doctype` anywhere, the wrapper branch otherwise, and classifying the
same text twice yields the same branch. -/
theorem c7_classifier (s : String) :
    (looksLikeHtml s = true ↔
      ((∃ l r, (strLower s).data = l ++ "<html".data ++ r) ∨
       (∃ l r, (strLower s).data = l ++ "<!doctype".data ++ r)))
    ∧ renderedIndex s = (if looksLikeHtml s then s else wrapHtml s)
    ∧ looksLikeHtml s = looksLikeHtml s := by
  refine ⟨?_, rfl, rfl⟩
  simp only [looksLikeHtml, containsSub, Bool.or_eq_true, hasInfixList_iff_exists]

-- ## C9 (corrected: the location is a fixed global path, never cleaned up)

/-- C9 counterexample: two distinct Execute invocations (different code) write
to the very same path `generated_code.py`, and the trace contains no removal,
so the artifact outlives the request — refuting "fresh, request-scoped
location" and "never write to the same path". -/
theorem c9_counterexample :
    writePaths (deployCode "print(1)" execEnvOk).2 = [GENERATED_FILE]
    ∧ writePaths (deployCode "print(2)" execEnvOk).2 = [GENERATED_FILE]
    ∧ mentionsRemove (deployCode "print(1)" execEnvOk).2 = false := by decide

/-- C9 amended: every Execute invocation with non-empty code writes the source
text to the one fixed path `generated_code.py` (the first effect, before the
run), and no invocation ever removes a file, so the artifact persists. -/
theorem c9_fixed_path (code : String) (env : ExecEnv) (h : code ≠ "") :
    writePaths (deployCode code env).2 = [GENERATED_FILE]
    ∧ (deployCode code env).2.head? = some (Effect.writeFile GENERATED_FILE code)
    ∧ mentionsRemove (deployCode code env).2 = false := by
  obtain ⟨saveRes, runRes⟩ := env
  cases saveRes <;> cases runRes <;>
    simp [deployCode, h, writePaths, mentionsRemove]

/-- C9 witness: the amended theorem applied at concrete input. -/
theorem c9_fixed_path_witness :
    writePaths (deployCode "print(1)" execEnvOk).2 = [GENERATED_FILE]
    ∧ (deployCode "print(1)" execEnvOk).2.head? =
        some (Effect.writeFile GENERATED_FILE "print(1)")
    ∧ mentionsRemove (deployCode "print(1)" execEnvOk).2 = false :=
  c9_fixed_path "print(1)" execEnvOk (by decide)

-- ## C4 (corrected: a failed save yields a fifth output shape)

/-- C4 counterexample: with non-empty code, when the save of the source file
raises, the returned output is `Error saving file: ...`, which starts with
none of the four fixed prefixes (its class is 0, not 1). -/
theorem c4_counterexample :
    (deployCode "print(1)" execEnvSaveFail).1 = "Error saving file: disk full"
    ∧ execOutputClass (deployCode "print(1)" execEnvSaveFail).1 = 0 := by decide

/-- C4 amended: for every non-empty code input, when the save of the source
file succeeds the returned output starts with exactly one of the four fixed
prefixes; when the save fails it starts with `Error saving file:` instead. -/
theorem c4_output_prefixes (code : String) (env : ExecEnv) (h : code ≠ "") :
    (env.saveRes = none → execOutputClass (deployCode code env).1 = 1)
    ∧ (∀ e, env.saveRes = some e →
        startsWithSub (deployCode code env).1 "Error saving file:" = true) := by
  obtain ⟨saveRes, runRes⟩ := env
  constructor
  · intro hs
    simp only at hs
    subst hs
    cases runRes with
    | ok out =>
      simp only [deployCode, if_neg h]
      unfold execOutputClass
      rw [startsWithSub_append_true "Execution Successful:\n\n" out
            "Execution Successful:" (by decide),
          startsWithSub_append_false "Execution Successful:\n\n" out
            "Execution Failed (Runtime Error):" (by decide),
          startsWithSub_append_false "Execution Successful:\n\n" out
            "Execution Failed (Timeout):" (by decide),
          startsWithSub_append_false "Execution Successful:\n\n" out
            "Execution Failed:" (by decide),
          startsWithSub_append_false "Execution Successful:\n\n" out
            "An unexpected error" (by decide)]
      decide
    | calledProcessError err =>
      simp only [deployCode, if_neg h]
      unfold execOutputClass
      rw [startsWithSub_append_false "Execution Failed (Runtime Error):\n\n" err
            "Execution Successful:" (by decide),
          startsWithSub_append_true "Execution Failed (Runtime Error):\n\n" err
            "Execution Failed (Runtime Error):" (by decide),
          startsWithSub_append_false "Execution Failed (Runtime Error):\n\n" err
            "Execution Failed (Timeout):" (by decide),
          startsWithSub_append_false "Execution Failed (Runtime Error):\n\n" err
            "Execution Failed:" (by decide),
          startsWithSub_append_false "Execution Failed (Runtime Error):\n\n" err
            "An unexpected error" (by decide)]
      decide
    | timedOut =>
      simp only [deployCode, if_neg h]
      decide
    | fileNotFound =>
      simp only [deployCode, if_neg h]
      decide
    | otherExc msg =>
      simp only [deployCode, if_neg h]
      unfold execOutputClass
      rw [startsWithSub_append_false "An unexpected error occurred during execution: " msg
            "Execution Successful:" (by decide),
          startsWithSub_append_false "An unexpected error occurred during execution: " msg
            "Execution Failed (Runtime Error):" (by decide),
          startsWithSub_append_false "An unexpected error occurred during execution: " msg
            "Execution Failed (Timeout):" (by decide),
          startsWithSub_append_false "An unexpected error occurred during execution: " msg
            "Execution Failed:" (by decide),
          startsWithSub_append_true "An unexpected error occurred during execution: " msg
            "An unexpected error" (by decide)]
      decide
  · intro e hs
    simp only at hs
    subst hs
    simp only [deployCode, if_neg h]
    exact startsWithSub_append_true "Error saving file: " e "Error saving file:" (by decide)

/-- C4 witness: the amended theorem applied at concrete input. -/
theorem c4_output_prefixes_witness :
    execOutputClass (deployCode "print(1)" execEnvOk).1 = 1 :=
  (c4_output_prefixes "print(1)" execEnvOk (by decide)).1 rfl

-- ## C2 (corrected: manual mode skips the whole git phase, not just Push)

/-- C2 counterexample: with non-empty code and autoPush false, the pipeline
returns success with manual instructions but performs no repository check,
no staging and no commit — the orchestration never starts. -/
theorem c2_counterexample :
    (deployToGithub "x" false envAllOk).1.status = "success"
    ∧ (deployToGithub "x" false envAllOk).1.instructions = some manualInstructions
    ∧ Effect.runProc ["git", "rev-parse", "--git-dir"] ∉ (deployToGithub "x" false envAllOk).2
    ∧ Effect.runProc ["git", "add", "docs/"] ∉ (deployToGithub "x" false envAllOk).2
    ∧ Effect.runProc ["git", "commit", "-m", "Auto-deploy: Generated code to GitHub Pages"]
        ∉ (deployToGithub "x" false envAllOk).2 := by decide

/-- C2 amended: for every deployment request with non-empty code and
autoPush=false whose materialization succeeds, the pipeline returns terminal
`success` with the manual-publish instructions and invokes no git command at
all — neither repository check, init, staging, commit nor push. -/
theorem c2_manual_mode (code : String) (env : Env) (r : ProcRes)
    (hc : code ≠ "") (h1 : env.mkdirRes = none) (h2 : env.writeCodeRes = none)
    (h3 : env.execRes = RunRes.completed r) (h4 : env.writeIndexRes = none)
    (h5 : env.writeReadmeRes = none) :
    (deployToGithub code false env).1.status = "success"
    ∧ (deployToGithub code false env).1.message = "Files created successfully"
    ∧ (deployToGithub code false env).1.instructions = some manualInstructions
    ∧ ∀ cmd, Effect.runProc ("git" :: cmd) ∉ (deployToGithub code false env).2 := by
  have hgp : ("git" : String) ≠ "python" := by decide
  simp [deployToGithub, hc, h1, h2, h3, h4, h5, hgp]

/-- C2 witness: the amended theorem applied at concrete input. -/
theorem c2_manual_mode_witness :
    (deployToGithub "x" false envAllOk).1.status = "success"
    ∧ (deployToGithub "x" false envAllOk).1.message = "Files created successfully"
    ∧ (deployToGithub "x" false envAllOk).1.instructions = some manualInstructions
    ∧ ∀ cmd, Effect.runProc ("git" :: cmd) ∉ (deployToGithub "x" false envAllOk).2 :=
  c2_manual_mode "x" envAllOk ⟨0, "hi\n", ""⟩ (by decide) rfl rfl rfl rfl rfl

-- ## C3 (corrected: any write failure aborts the pipeline with `error`)

/-- C3 counterexample: the publish directory is created but the first write
(the source file) fails; the pipeline aborts with terminal `error` and the
remaining writes (entry point, manifest) are never attempted — they do not
appear in the effect trace. -/
theorem c3_counterexample :
    (deployToGithub "x" true envWriteFail).1.status = "error"
    ∧ (deployToGithub "x" true envWriteFail).2 =
        [Effect.mkdirDocs, Effect.writeFile "docs/generated_code.py" "x"]
    ∧ (deployToGithub "x" true envWriteFail).1.log =
        some ["✅ Created /docs directory", "❌ Error: disk full"] := by decide

/-- C3 amended: during site materialization, failure to create the publish
directory aborts the whole pipeline with terminal `error`, and so does a
failure of any of the three writes: the failure is recorded in the log as a
boundary error entry, but the remaining writes are not attempted. -/
theorem c3_materialization_failures (code : String) (env : Env) (e : String)
    (r : ProcRes) (hc : code ≠ "") :
    (env.mkdirRes = some e →
      deployToGithub code true env =
        ({ status := "error", message := "Deployment failed: " ++ e,
           log := some ["❌ Error: " ++ e], instructions := none, error := none },
         [Effect.mkdirDocs]))
    ∧ (env.mkdirRes = none → env.writeCodeRes = some e →
      deployToGithub code true env =
        ({ status := "error", message := "Deployment failed: " ++ e,
           log := some ["✅ Created /docs directory", "❌ Error: " ++ e],
           instructions := none, error := none },
         [Effect.mkdirDocs, Effect.writeFile "docs/generated_code.py" code]))
    ∧ (env.mkdirRes = none → env.writeCodeRes = none →
       env.execRes = RunRes.completed r → env.writeIndexRes = some e →
      deployToGithub code true env =
        ({ status := "error", message := "Deployment failed: " ++ e,
           log := some ["✅ Created /docs directory", "✅ Saved Python code",
                        "❌ Error: " ++ e],
           instructions := none, error := none },
         [Effect.mkdirDocs, Effect.writeFile "docs/generated_code.py" code,
          Effect.runProc ["python", "docs/generated_code.py"],
          Effect.writeFile "docs/index.html"
            (renderedIndex (if r.stdout = "" then r.stderr else r.stdout))]))
    ∧ (env.mkdirRes = none → env.writeCodeRes = none →
       env.execRes = RunRes.completed r → env.writeIndexRes = none →
       env.writeReadmeRes = some e →
      (deployToGithub code true env).1.status = "error"
      ∧ (deployToGithub code true env).1.log =
          some ["✅ Created /docs directory", "✅ Saved Python code",
                (if looksLikeHtml (if r.stdout = "" then r.stderr else r.stdout)
                 then "✅ Generated HTML page" else "✅ Created HTML wrapper"),
                "❌ Error: " ++ e]
      ∧ (deployToGithub code true env).2 =
          [Effect.mkdirDocs, Effect.writeFile "docs/generated_code.py" code,
           Effect.runProc ["python", "docs/generated_code.py"],
           Effect.writeFile "docs/index.html"
             (renderedIndex (if r.stdout = "" then r.stderr else r.stdout)),
           Effect.writeFile "docs/README.md" readmeContent]) := by
  refine ⟨?_, ?_, ?_, ?_⟩
  · intro hm
    simp [deployToGithub, hc, hm, catchResult]
  · intro hm hw
    simp [deployToGithub, hc, hm, hw, catchResult]
  · intro hm hw he hi
    simp [deployToGithub, hc, hm, hw, he, hi, catchResult]
  · intro hm hw he hi hr
    simp [deployToGithub, hc, hm, hw, he, hi, hr, catchResult]

/-- C3 witness: the amended theorem applied at concrete input (the source-file
write fails). -/
theorem c3_materialization_failures_witness :
    deployToGithub "x" true envWriteFail =
      ({ status := "error", message := "Deployment failed: " ++ "disk full",
         log := some ["✅ Created /docs directory", "❌ Error: " ++ "disk full"],
         instructions := none, error := none },
       [Effect.mkdirDocs, Effect.writeFile "docs/generated_code.py" "x"]) :=
  (c3_materialization_failures "x" envWriteFail "disk full" procOk (by decide)).2.1 rfl rfl

-- ## C6 (confirmed: missing remote after fresh init is terminal partial)

/-- C6: when the working directory is not yet a repository, `git init`
succeeds, and no `origin` remote is configured, the pipeline terminates with
status `partial`, remediation instructions containing a literal "add origin"
command, and attempts no further step: no staging, commit or push appears in
the effect trace. -/
theorem c6_remote_missing (code : String) (env : Env) (r : ProcRes)
    (hc : code ≠ "") (h1 : env.mkdirRes = none) (h2 : env.writeCodeRes = none)
    (h3 : env.execRes = RunRes.completed r) (h4 : env.writeIndexRes = none)
    (h5 : env.writeReadmeRes = none)
    (hgc : env.gitCheck.returncode ≠ 0) (hinit : env.gitInit.returncode = 0)
    (hrem : env.remoteCheck1.returncode ≠ 0) :
    (deployToGithub code true env).1.status = "partial"
    ∧ (deployToGithub code true env).1.message =
        "Files created but Git remote not configured"
    ∧ (deployToGithub code true env).1.instructions = some remoteInstructions
    ∧ containsSub remoteInstructions "add origin" = true
    ∧ Effect.runProc ["git", "add", "docs/"] ∉ (deployToGithub code true env).2
    ∧ Effect.runProc ["git", "commit", "-m", "Auto-deploy: Generated code to GitHub Pages"]
        ∉ (deployToGithub code true env).2
    ∧ Effect.runProc ["git", "push", "origin", "main"]
        ∉ (deployToGithub code true env).2 := by
  have e1 : ("add" : String) ≠ "rev-parse" := by decide
  have e2 : ("commit" : String) ≠ "rev-parse" := by decide
  have e3 : ("push" : String) ≠ "rev-parse" := by decide
  have e4 : ("add" : String) ≠ "init" := by decide
  have e5 : ("commit" : String) ≠ "init" := by decide
  have e6 : ("push" : String) ≠ "init" := by decide
  have e7 : ("add" : String) ≠ "remote" := by decide
  have e8 : ("commit" : String) ≠ "remote" := by decide
  have e9 : ("push" : String) ≠ "remote" := by decide
  have e10 : ("git" : String) ≠ "python" := by decide
  have e11 : containsSub remoteInstructions "add origin" = true := by decide
  simp [deployToGithub, gitOps, hc, h1, h2, h3, h4, h5, hgc, hinit, hrem,
    e1, e2, e3, e4, e5, e6, e7, e8, e9, e10, e11]

/-- C6 witness: the theorem applied at a concrete environment with no
repository and no configured remote. -/
theorem c6_remote_missing_witness :
    (deployToGithub "x" true envNoRemote).1.status = "partial"
    ∧ (deployToGithub "x" true envNoRemote).1.instructions = some remoteInstructions :=
  ⟨(c6_remote_missing "x" envNoRemote ⟨0, "hi\n", ""⟩ (by decide) rfl rfl rfl rfl rfl
      (by decide) rfl (by decide)).1,
   (c6_remote_missing "x" envNoRemote ⟨0, "hi\n", ""⟩ (by decide) rfl rfl rfl rfl rfl
      (by decide) rfl (by decide)).2.2.1⟩

-- ## C1 (corrected: a timed-out push yields `error`, not `partial`)

theorem stageCommitPush_push_fail (env : Env) (log : List String)
    (effs : List Effect) (p : ProcRes)
    (hp : env.gitPush = RunRes.completed p) (hrc : p.returncode ≠ 0) :
    (stageCommitPush env log effs).1.status = "partial"
    ∧ (stageCommitPush env log effs).1.message =
        "Files created and committed, but push failed"
    ∧ (stageCommitPush env log effs).1.error = some p.stderr
    ∧ (containsSub (strLower p.stderr) "rejected" = true →
        "\n💡 Tip: Try running 'git pull origin main' first"
          ∈ logOf (stageCommitPush env log effs).1)
    ∧ (containsSub (strLower p.stderr) "rejected" = false →
       (containsSub (strLower p.stderr) "could not read"
          || containsSub (strLower p.stderr) "authentication") = true →
        "\n💡 Tip: Check your Git credentials or use SSH keys"
          ∈ logOf (stageCommitPush env log effs).1) := by
  refine ⟨?_, ?_, ?_, ?_, ?_⟩
  · simp [stageCommitPush, hp, hrc]
  · simp [stageCommitPush, hp, hrc]
  · simp [stageCommitPush, hp, hrc]
  · intro hrej
    simp [stageCommitPush, hp, hrc, hrej, logOf]
  · intro hrej hauth
    simp [stageCommitPush, hp, hrc, hrej, hauth, logOf]

theorem stageCommitPush_push_timeout (env : Env) (log : List String)
    (effs : List Effect) (hp : env.gitPush = RunRes.timedOut) :
    (stageCommitPush env log effs).1.status = "error"
    ∧ (stageCommitPush env log effs).1.message = "Deployment timed out"
    ∧ Effect.runProc ["git", "push", "origin", "main"] ∈ (stageCommitPush env log effs).2 := by
  refine ⟨?_, ?_, ?_⟩
  · simp [stageCommitPush, hp, catchResult]
  · simp [stageCommitPush, hp, catchResult]
  · simp [stageCommitPush, hp, catchResult]

theorem gitOps_reaches_push (env : Env) (log : List String) (effs : List Effect)
    (hrepo : env.gitCheck.returncode = 0
      ∨ (env.gitInit.returncode = 0 ∧ env.remoteCheck1.returncode = 0)) :
    ∃ L E, gitOps env log effs = stageCommitPush env L E := by
  by_cases hgc : env.gitCheck.returncode = 0
  · exact ⟨log ++ ["\n🔄 Starting automated Git deployment..."],
           effs ++ [Effect.runProc ["git", "rev-parse", "--git-dir"]],
           by simp [gitOps, hgc]⟩
  · obtain ⟨hi, hr⟩ := hrepo.resolve_left hgc
    exact ⟨log ++ ["\n🔄 Starting automated Git deployment...",
                   "✅ Initialized Git repository"],
           effs ++ [Effect.runProc ["git", "rev-parse", "--git-dir"],
                    Effect.runProc ["git", "init"],
                    Effect.runProc ["git", "remote", "get-url", "origin"]],
           by simp [gitOps, hgc, hi, hr]⟩

theorem deployToGithub_reaches_gitOps (code : String) (env : Env) (r : ProcRes)
    (hc : code ≠ "") (h1 : env.mkdirRes = none) (h2 : env.writeCodeRes = none)
    (h3 : env.execRes = RunRes.completed r) (h4 : env.writeIndexRes = none)
    (h5 : env.writeReadmeRes = none) :
    ∃ L E, deployToGithub code true env = gitOps env L E := by
  exact ⟨["✅ Created /docs directory", "✅ Saved Python code",
          (if looksLikeHtml (if r.stdout = "" then r.stderr else r.stdout)
           then "✅ Generated HTML page" else "✅ Created HTML wrapper"),
          "✅ Created README.md"],
         [Effect.mkdirDocs, Effect.writeFile "docs/generated_code.py" code,
          Effect.runProc ["python", "docs/generated_code.py"],
          Effect.writeFile "docs/index.html"
            (renderedIndex (if r.stdout = "" then r.stderr else r.stdout)),
          Effect.writeFile "docs/README.md" readmeContent],
         by simp [deployToGithub, hc, h1, h2, h3, h4, h5]⟩

/-- C1 counterexample: first, a push that exceeds its 30-second timeout is
handled by the boundary `TimeoutExpired` handler and yields terminal `error`,
not `partial`, although the push step was reached (the push command is in the
trace); second, a push error text containing an authentication phrase does
not put the check-credentials tip in the log when it also contains
"rejected" (the checks are an if/elif chain). -/
theorem c1_counterexample :
    ((deployToGithub "x" true envPushTimeout).1.status = "error"
     ∧ (deployToGithub "x" true envPushTimeout).1.status ≠ "partial"
     ∧ Effect.runProc ["git", "push", "origin", "main"]
         ∈ (deployToGithub "x" true envPushTimeout).2)
    ∧ ((deployToGithub "x" true envPushRejectedAuth).1.status = "partial"
     ∧ containsSub (strLower "rejected: authentication required") "authentication" = true
     ∧ "\n💡 Tip: Check your Git credentials or use SSH keys"
         ∉ logOf (deployToGithub "x" true envPushRejectedAuth).1) := by decide

/-- C1 amended: for every deployment request that reaches the Push step, a
push that completes with a nonzero exit code yields terminal `partial` (with
the raw error preserved); a push that exceeds the 30-second timeout instead
yields terminal `error` ("Deployment timed out"). If the push error text
contains "rejected" the log contains the pull/rebase tip, and if it contains
an authentication-related phrase but not "rejected" the log contains the
check-credentials tip. -/
theorem c1_push_outcomes (code : String) (env : Env) (r p : ProcRes)
    (hc : code ≠ "") (h1 : env.mkdirRes = none) (h2 : env.writeCodeRes = none)
    (h3 : env.execRes = RunRes.completed r) (h4 : env.writeIndexRes = none)
    (h5 : env.writeReadmeRes = none)
    (hrepo : env.gitCheck.returncode = 0
      ∨ (env.gitInit.returncode = 0 ∧ env.remoteCheck1.returncode = 0)) :
    (env.gitPush = RunRes.completed p → p.returncode ≠ 0 →
      (deployToGithub code true env).1.status = "partial"
      ∧ (deployToGithub code true env).1.message =
          "Files created and committed, but push failed"
      ∧ (deployToGithub code true env).1.error = some p.stderr
      ∧ (containsSub (strLower p.stderr) "rejected" = true →
          "\n💡 Tip: Try running 'git pull origin main' first"
            ∈ logOf (deployToGithub code true env).1)
      ∧ (containsSub (strLower p.stderr) "rejected" = false →
         (containsSub (strLower p.stderr) "could not read"
            || containsSub (strLower p.stderr) "authentication") = true →
          "\n💡 Tip: Check your Git credentials or use SSH keys"
            ∈ logOf (deployToGithub code true env).1))
    ∧ (env.gitPush = RunRes.timedOut →
      (deployToGithub code true env).1.status = "error"
      ∧ (deployToGithub code true env).1.message = "Deployment timed out") := by
  obtain ⟨L0, E0, hred⟩ := deployToGithub_reaches_gitOps code env r hc h1 h2 h3 h4 h5
  obtain ⟨L, E, hgit⟩ := gitOps_reaches_push env L0 E0 hrepo
  rw [hred, hgit]
  constructor
  · intro hp hrc
    exact stageCommitPush_push_fail env L E p hp hrc
  · intro hp
    exact ⟨(stageCommitPush_push_timeout env L E hp).1,
           (stageCommitPush_push_timeout env L E hp).2.1⟩

/-- C1 witness: the amended theorem applied at a concrete rejected push. -/
theorem c1_push_outcomes_witness :
    (deployToGithub "x" true envPushRejected).1.status = "partial"
    ∧ "\n💡 Tip: Try running 'git pull origin main' first"
        ∈ logOf (deployToGithub "x" true envPushRejected).1 := by
  have h := (c1_push_outcomes "x" envPushRejected ⟨0, "hi\n", ""⟩
    ⟨1, "", "! [rejected] main -> main"⟩ (by decide) rfl rfl rfl rfl rfl
    (Or.inl (by decide))).1 rfl (by decide)
  exact ⟨h.1, h.2.2.2.1 (by decide)⟩

-- ## C10 (confirmed: the wrapper interpolates the raw output verbatim)

/-- The wrapper template split at the interpolation point: everything before
the opening `<pre ...>` tag. -/
def wrapHeadPre : String :=
  "<!DOCTYPE html>\n<html lang=\"en\">\n<head>\n    <meta charset=\"UTF-8\">\n    <meta name=\"viewport\" content=\"width=device-width, initial-scale=1.0\">\n    <title>Generated Output</title>\n    <script src=\"https://cdn.tailwindcss.com\"></script>\n</head>\n<body class=\"bg-gray-900 text-white min-h-screen p-8\">\n    <div class=\"max-w-4xl mx-auto\">\n        <h1 class=\"text-4xl font-bold mb-6 text-blue-400\">Generated Output</h1>\n        <div class=\"bg-gray-800 rounded-lg p-6 shadow-xl\">\n            "

/-- The opening tag of the output block in the wrapper template. -/
def preOpenTag : String := "<pre class=\"whitespace-pre-wrap font-mono text-green-400\">"

/-- The wrapper template after the closing `</pre>` tag. -/
def wrapTailRest : String :=
  "\n        </div>\n        <footer class=\"mt-8 text-center text-gray-400\">\n            <p>Generated by LLM Code Deployment Tool</p>\n        </footer>\n    </div>\n</body>\n</html>"

theorem wrapHead_decomp : wrapHead = wrapHeadPre ++ preOpenTag := by decide

theorem wrapTail_decomp : wrapTail = "</pre>" ++ wrapTailRest := by decide

/-- C10: for every captured output without a document-start marker, the
wrapper branch interpolates the output into the template with no escaping:
the entry-point content is exactly `wrapHead ++ output ++ wrapTail`, and in
particular the raw output text appears verbatim between the `<pre ...>` and
`</pre>` tags, whatever HTML-significant characters it contains. -/
theorem c10_verbatim_interpolation (out : String) :
    (looksLikeHtml out = false → renderedIndex out = wrapHead ++ out ++ wrapTail)
    ∧ hasInfixList (preOpenTag ++ out ++ "</pre>").data (wrapHtml out).data = true := by
  constructor
  · intro h
    simp [renderedIndex, h, wrapHtml]
  · rw [hasInfixList_iff_exists]
    refine ⟨wrapHeadPre.data, wrapTailRest.data, ?_⟩
    rw [wrapHtml, wrapHead_decomp, wrapTail_decomp]
    simp [strData_append, List.append_assoc]

/-- C10 witness: applied to an output holding HTML-significant characters. -/
theorem c10_verbatim_interpolation_witness :
    renderedIndex "<b> & </b>" = wrapHead ++ "<b> & </b>" ++ wrapTail :=
  (c10_verbatim_interpolation "<b> & </b>").1 (by decide)

-- ## C8 (corrected: `.replace('.git', '')` removes every occurrence)

theorem pagesFromParts_append (S : List (List Char)) (o r : List Char)
    (hoc : ':' ∉ o) :
    pagesFromParts (S ++ [o, r]) =
      some ("https://" ++ (⟨o⟩ : String) ++ ".github.io/" ++ (⟨r⟩ : String) ++ "/") := by
  have hlen : 2 ≤ (S ++ [o, r]).length := by simp
  have hrev : (S ++ [o, r]).reverse.getD 1 [] = o := reverse_getD_one S o r
  have hlast : (S ++ [o, r]).getLastD [] = r := by
    have : S ++ [o, r] = (S ++ [o]) ++ [r] := by simp
    rw [this, getLastD_concat_nil]
  have hsing : ([o] : List (List Char)).getLastD [] = o := rfl
  simp only [pagesFromParts, hlen, if_true, hrev, hlast,
    splitOnCharList_eq_singleton ':' o hoc, hsing]

/-- C8 counterexample: for the remote URL `https://github.com/owner/a.gitb`
(of the claimed form with host `github.com`, owner `owner`, repo `a.gitb`),
the code removes the inner occurrence of `.git` as well, synthesizing
`https://owner.github.io/ab/` instead of the claimed
`https://owner.github.io/a.gitb/`. -/
theorem c8_counterexample :
    pagesUrl "https://github.com/owner/a.gitb" = some "https://owner.github.io/ab/"
    ∧ ("https://owner.github.io/ab/" : String) ≠ "https://owner.github.io/a.gitb/" := by
  decide

/-- C8 amended: after a successful push, for every remote URL of the form
`https://<host>/<owner>/<repo>[.git]` or `<user>@<host>:<owner>/<repo>[.git]`
that contains `github.com` and in which the substring `.git` occurs only as
the optional trailing suffix (the code removes every occurrence of `.git`,
not only a trailing one), the synthesized page URL equals
`https://<owner>.github.io/<repo>/`. -/
theorem c8_pages_url (user host owner repo : String)
    (hos : '/' ∉ owner.data) (hoc : ':' ∉ owner.data) (hrs : '/' ∉ repo.data)
    (hus : '/' ∉ user.data) (hhs : '/' ∉ host.data)
    (hg1 : containsSub ("https://" ++ host ++ "/" ++ owner ++ "/" ++ repo) ".git" = false)
    (hh1 : containsSub ("https://" ++ host ++ "/" ++ owner ++ "/" ++ repo) "github.com" = true)
    (hg2 : containsSub (user ++ "@" ++ host ++ ":" ++ owner ++ "/" ++ repo) ".git" = false)
    (hh2 : containsSub (user ++ "@" ++ host ++ ":" ++ owner ++ "/" ++ repo) "github.com" = true) :
    pagesUrl ("https://" ++ host ++ "/" ++ owner ++ "/" ++ repo)
      = some ("https://" ++ owner ++ ".github.io/" ++ repo ++ "/")
    ∧ pagesUrl ("https://" ++ host ++ "/" ++ owner ++ "/" ++ repo ++ ".git")
      = some ("https://" ++ owner ++ ".github.io/" ++ repo ++ "/")
    ∧ pagesUrl (user ++ "@" ++ host ++ ":" ++ owner ++ "/" ++ repo)
      = some ("https://" ++ owner ++ ".github.io/" ++ repo ++ "/")
    ∧ pagesUrl (user ++ "@" ++ host ++ ":" ++ owner ++ "/" ++ repo ++ ".git")
      = some ("https://" ++ owner ++ ".github.io/" ++ repo ++ "/") := by
  have hslash : ("/" : String).data = ['/'] := rfl
  have hgitd : (".git" : String).data = gitPat := rfl
  have hg1' : hasInfixList gitPat ("https://" ++ host ++ "/" ++ owner ++ "/" ++ repo).data = false := hg1
  have hg2' : hasInfixList gitPat (user ++ "@" ++ host ++ ":" ++ owner ++ "/" ++ repo).data = false := hg2
  -- https form: the split of the cleaned URL
  have hdata1 : ("https://" ++ host ++ "/" ++ owner ++ "/" ++ repo).data
      = ("https://".data ++ (host.data ++ ('/' :: owner.data))) ++ '/' :: repo.data := by
    simp [strData_append, hslash]
  have hsplit1 : splitOnCharList '/' ("https://" ++ host ++ "/" ++ owner ++ "/" ++ repo).data
      = splitOnCharList '/' ("https://".data ++ host.data) ++ [owner.data, repo.data] := by
    rw [hdata1, splitOnCharList_append_sep '/' _ _ hrs,
      show "https://".data ++ (host.data ++ ('/' :: owner.data))
        = ("https://".data ++ host.data) ++ '/' :: owner.data by simp,
      splitOnCharList_append_sep '/' _ _ hos]
    simp
  -- ssh form: the whole head is one '/'-free segment
  have hW : '/' ∉ user.data ++ '@' :: (host.data ++ ':' :: owner.data) := by
    simp only [List.mem_append, List.mem_cons, not_or]
    exact ⟨hus, by decide, hhs, by decide, hos⟩
  have hdata2 : (user ++ "@" ++ host ++ ":" ++ owner ++ "/" ++ repo).data
      = (user.data ++ '@' :: (host.data ++ ':' :: owner.data)) ++ '/' :: repo.data := by
    simp [strData_append, hslash,
      show ("@" : String).data = ['@'] from rfl, show (":" : String).data = [':'] from rfl]
  have hsplit2 : splitOnCharList '/' (user ++ "@" ++ host ++ ":" ++ owner ++ "/" ++ repo).data
      = [user.data ++ '@' :: (host.data ++ ':' :: owner.data), repo.data] := by
    rw [hdata2, splitOnCharList_append_sep '/' _ _ hrs,
      splitOnCharList_eq_singleton '/' _ hW]
    rfl
  have hsshParts : pagesFromParts [user.data ++ '@' :: (host.data ++ ':' :: owner.data), repo.data]
      = some ("https://" ++ owner ++ ".github.io/" ++ repo ++ "/") := by
    have husr : (splitOnCharList ':' (user.data ++ '@' :: (host.data ++ ':' :: owner.data))).getLastD []
        = owner.data := by
      rw [show user.data ++ '@' :: (host.data ++ ':' :: owner.data)
            = (user.data ++ '@' :: host.data) ++ ':' :: owner.data by simp,
        splitOnCharList_append_sep ':' _ _ hoc, getLastD_concat_nil]
    have hlen2 : 2 ≤ ([user.data ++ '@' :: (host.data ++ ':' :: owner.data), repo.data] :
        List (List Char)).length := by simp
    have hrev2 : ([user.data ++ '@' :: (host.data ++ ':' :: owner.data), repo.data] :
        List (List Char)).reverse.getD 1 []
        = user.data ++ '@' :: (host.data ++ ':' :: owner.data) := rfl
    have hlast2 : ([user.data ++ '@' :: (host.data ++ ':' :: owner.data), repo.data] :
        List (List Char)).getLastD [] = repo.data := rfl
    simp only [pagesFromParts, hlen2, if_true, hrev2, husr, hlast2]
  refine ⟨?_, ?_, ?_, ?_⟩
  · simp only [pagesUrl, hh1, if_true, removeAll_of_not_hasInfix _ _ hg1', hsplit1,
      pagesFromParts_append _ _ _ hoc]
  · have hhg : containsSub ("https://" ++ host ++ "/" ++ owner ++ "/" ++ repo ++ ".git")
        "github.com" = true := by
      show hasInfixList "github.com".data
        (("https://" ++ host ++ "/" ++ owner ++ "/" ++ repo ++ ".git").data) = true
      rw [show ("https://" ++ host ++ "/" ++ owner ++ "/" ++ repo ++ ".git").data
            = ("https://" ++ host ++ "/" ++ owner ++ "/" ++ repo).data ++ gitPat by
          simp [strData_append, gitPat]]
      exact hasInfixList_append_left _ _ _ hh1
    have hclean : removeAll gitPat ("https://" ++ host ++ "/" ++ owner ++ "/" ++ repo ++ ".git").data
        = ("https://" ++ host ++ "/" ++ owner ++ "/" ++ repo).data := by
      rw [show ("https://" ++ host ++ "/" ++ owner ++ "/" ++ repo ++ ".git").data
            = ("https://" ++ host ++ "/" ++ owner ++ "/" ++ repo).data ++ gitPat by
          simp [strData_append, gitPat]]
      exact removeAll_append_gitPat _ hg1'
    simp only [pagesUrl, hhg, if_true, hclean, hsplit1, pagesFromParts_append _ _ _ hoc]
  · simp only [pagesUrl, hh2, if_true, removeAll_of_not_hasInfix _ _ hg2', hsplit2, hsshParts]
  · have hhg : containsSub (user ++ "@" ++ host ++ ":" ++ owner ++ "/" ++ repo ++ ".git")
        "github.com" = true := by
      show hasInfixList "github.com".data
        ((user ++ "@" ++ host ++ ":" ++ owner ++ "/" ++ repo ++ ".git").data) = true
      rw [show (user ++ "@" ++ host ++ ":" ++ owner ++ "/" ++ repo ++ ".git").data
            = (user ++ "@" ++ host ++ ":" ++ owner ++ "/" ++ repo).data ++ gitPat by
          simp [strData_append, gitPat]]
      exact hasInfixList_append_left _ _ _ hh2
    have hclean : removeAll gitPat (user ++ "@" ++ host ++ ":" ++ owner ++ "/" ++ repo ++ ".git").data
        = (user ++ "@" ++ host ++ ":" ++ owner ++ "/" ++ repo).data := by
      rw [show (user ++ "@" ++ host ++ ":" ++ owner ++ "/" ++ repo ++ ".git").data
            = (user ++ "@" ++ host ++ ":" ++ owner ++ "/" ++ repo).data ++ gitPat by
          simp [strData_append, gitPat]]
      exact removeAll_append_gitPat _ hg2'
    simp only [pagesUrl, hhg, if_true, hclean, hsplit2, hsshParts]

/-- C8 witness: the amended theorem applied to a concrete owner and repo in
each of the four URL shapes. -/
theorem c8_pages_url_witness :
    pagesUrl ("https://" ++ "github.com" ++ "/" ++ "alice" ++ "/" ++ "demo")
      = some ("https://" ++ "alice" ++ ".github.io/" ++ "demo" ++ "/")
    ∧ pagesUrl ("https://" ++ "github.com" ++ "/" ++ "alice" ++ "/" ++ "demo" ++ ".git")
      = some ("https://" ++ "alice" ++ ".github.io/" ++ "demo" ++ "/")
    ∧ pagesUrl ("git" ++ "@" ++ "github.com" ++ ":" ++ "alice" ++ "/" ++ "demo")
      = some ("https://" ++ "alice" ++ ".github.io/" ++ "demo" ++ "/")
    ∧ pagesUrl ("git" ++ "@" ++ "github.com" ++ ":" ++ "alice" ++ "/" ++ "demo" ++ ".git")
      = some ("https://" ++ "alice" ++ ".github.io/" ++ "demo" ++ "/") :=
  c8_pages_url "git" "github.com" "alice" "demo" (by decide) (by decide) (by decide)
    (by decide) (by decide) (by decide) (by decide) (by decide) (by decide)
